import Mathlib

/-
  Verification development for the marblez physics core.

  Shallow embedding of the repository sources:
    src/src/components/Jump.js        (runtime Jump component, re-exported by components/index.js)
    src/src/components/Jump.ts        (TypeScript twin, used by the jest test suite)
    src/src/components/Physics.js
    src/src/components/PlayerControl.js
    src/src/components/Surface.ts
    src/src/components/Transform.ts
    src/src/systems/PhysicsSystem.js
    src/src/systems/JumpSystem.ts
    src/src/systems/CollisionSystem.js

  Conventions of the embedding:
  * JS f64 numbers are modelled as rationals; every arithmetic step of the
    source is mirrored exactly on the rational inputs used in the theorems.
  * Where the source calls a square root (THREE.Vector3.length, distanceTo,
    normalize), the resulting length is irrational in general, so the length
    value is passed to the Lean function as an explicit argument; every
    theorem constrains such an argument v by 0 <= v and v^2 = (the squared
    length the source takes the root of), which pins it to the exact value
    the source computes.  Math.sin of a ramp angle is likewise passed as a
    function argument (only evaluated at the ramp angle).
  * In-place mutation of a component becomes a record update; a JS method
    becomes a Lean function from the component to the updated component.
-/

namespace Marblez

/-- A 3D vector with rational components, modelling THREE.Vector3. -/
structure Vec3 where
  x : ℚ
  y : ℚ
  z : ℚ
deriving Repr, DecidableEq

/-- Componentwise vector addition, modelling the source's componentwise adds. -/
def Vec3.add (a b : Vec3) : Vec3 :=
  ⟨a.x + b.x, a.y + b.y, a.z + b.z⟩

/-- Scale a vector by a rational, modelling multiplyScalar. -/
def Vec3.smul (c : ℚ) (a : Vec3) : Vec3 :=
  ⟨c * a.x, c * a.y, c * a.z⟩

/-- Componentwise subtraction, modelling subVectors. -/
def Vec3.sub (a b : Vec3) : Vec3 :=
  ⟨a.x - b.x, a.y - b.y, a.z - b.z⟩

/-- Dot product, modelling THREE.Vector3.dot. -/
def Vec3.dot (a b : Vec3) : ℚ :=
  a.x * b.x + a.y * b.y + a.z * b.z

/-- Squared length of a vector; the source takes the square root of this. -/
def Vec3.normSq (a : Vec3) : ℚ :=
  a.x ^ 2 + a.y ^ 2 + a.z ^ 2

/-- Math.sign on rationals: 1 for positive, -1 for negative, 0 for zero. -/
def msign (q : ℚ) : ℚ :=
  if 0 < q then 1 else if q < 0 then -1 else 0

/-- Jump component state, from src/src/components/Jump.js (same fields in Jump.ts). -/
structure Jump where
  jumpPower : ℚ
  isJumping : Bool
  isFalling : Bool
  isOnSurface : Bool
  jumpRequested : Bool
  canJump : Bool
  jumpCooldown : ℚ
  jumpCooldownTime : ℚ
deriving Repr, DecidableEq

/-- Jump.requestJump from Jump.js: latch a jump request if the guard
    (canJump, isOnSurface, not isJumping, jumpCooldown <= 0) holds now. -/
def Jump.requestJump (j : Jump) : Jump :=
  if j.canJump && j.isOnSurface && !j.isJumping && decide (j.jumpCooldown ≤ 0) then
    { j with jumpRequested := true }
  else
    j

/-- Jump.executeJumpIfRequested from Jump.js: if a request is latched, launch
    unconditionally (no re-check of the guard) and report true. -/
def Jump.executeJumpIfRequested (j : Jump) : Jump × Bool :=
  if j.jumpRequested then
    ({ j with isJumping := true, isOnSurface := false, jumpRequested := false,
              jumpCooldown := j.jumpCooldownTime }, true)
  else
    (j, false)

/-- Jump.updateCooldown from Jump.js: decrement a positive cooldown by
    deltaTime, with no floor at zero. -/
def Jump.updateCooldown (j : Jump) (deltaTime : ℚ) : Jump :=
  if 0 < j.jumpCooldown then
    { j with jumpCooldown := j.jumpCooldown - deltaTime }
  else
    j

/-- Jump.updateCooldown from Jump.ts (the TypeScript twin exercised by the
    jest suite): decrement a positive cooldown by deltaTime, floored at 0. -/
def JumpTS.updateCooldown (j : Jump) (deltaTime : ℚ) : Jump :=
  if 0 < j.jumpCooldown then
    { j with jumpCooldown := max 0 (j.jumpCooldown - deltaTime) }
  else
    j

/-- Physics component, from src/src/components/Physics.js (mass omitted: it is
    never read by the integrator or resolver). -/
structure Physics where
  velocity : Vec3
  gravity : ℚ
  friction : ℚ
  airFriction : ℚ
  bounceCoefficient : ℚ
  isOnGround : Bool
  isStatic : Bool
deriving Repr, DecidableEq

/-- Transform component, from src/src/components/Transform.ts (scale omitted:
    never read by the physics core). -/
structure Transform where
  position : Vec3
  previousPosition : Vec3
  rotation : Vec3
deriving Repr, DecidableEq

/-- Transform.savePreviousPosition: copy current position into previousPosition. -/
def Transform.savePreviousPosition (t : Transform) : Transform :=
  { t with previousPosition := t.position }

/-- Movement intent held by PlayerControl (moveDirection has x and z only). -/
structure MoveDir where
  x : ℚ
  z : ℚ
deriving Repr, DecidableEq

/-- PlayerControl component, from src/src/components/PlayerControl.js. -/
structure PlayerControl where
  speed : ℚ
  airControlFactor : ℚ
  moveDirection : MoveDir
deriving Repr, DecidableEq

/-- Surface component, from src/src/components/Surface.ts. -/
structure Surface where
  friction : ℚ
  bounciness : ℚ
  isJumpable : Bool
  isRamp : Bool
  rampAngle : ℚ
  slideFactor : ℚ
deriving Repr, DecidableEq

/-- An entity as the physics and collision systems see it: a Transform plus
    Physics pair (their required components) with optional PlayerControl and
    Jump components. -/
structure Entity where
  transform : Transform
  physics : Physics
  playerControl : Option PlayerControl
  jump : Option Jump
deriving Repr, DecidableEq

/-- PhysicsSystem.processPlayerMovement from PhysicsSystem.js: add the
    movement direction times speed (air-control-scaled when airborne) to the
    horizontal velocity. -/
def processPlayerMovement (ph : Physics) (pc : PlayerControl) : Physics :=
  let speed := if ph.isOnGround then pc.speed else pc.speed * pc.airControlFactor
  { ph with velocity := { ph.velocity with
      x := ph.velocity.x + pc.moveDirection.x * speed,
      z := ph.velocity.z + pc.moveDirection.z * speed } }

/-- PhysicsSystem.processJumping from PhysicsSystem.js, mirroring its four
    sequential steps: update the cooldown, execute a latched jump (set
    velocity.y to jumpPower and nudge position.y up by 0.05), apply gravity
    when not on a surface, and flip jumping to falling past the apex. -/
def processJumping (tr : Transform) (ph : Physics) (j : Jump) (deltaTime : ℚ) :
    Transform × Physics × Jump :=
  let j1 := j.updateCooldown deltaTime
  let ex := j1.executeJumpIfRequested
  let j2 := ex.1
  let ph1 := if ex.2 then { ph with velocity := { ph.velocity with y := j2.jumpPower } } else ph
  let tr1 := if ex.2 then
    { tr with position := { tr.position with y := tr.position.y + 5/100 } } else tr
  let ph2 := if !j2.isOnSurface then
    { ph1 with velocity := { ph1.velocity with y := ph1.velocity.y - ph1.gravity } } else ph1
  let j3 := if j2.isJumping && decide (ph2.velocity.y < 0) then
    { j2 with isJumping := false, isFalling := true } else j2
  (tr1, ph2, j3)

/-- Friction application at the end of a PhysicsSystem.update iteration:
    multiply the x and z velocity components by groundFriction when on the
    ground, else by airFriction; the y component is untouched. -/
def applyFriction (ph : Physics) : Physics :=
  if ph.isOnGround then
    { ph with velocity := { ph.velocity with
        x := ph.velocity.x * ph.friction, z := ph.velocity.z * ph.friction } }
  else
    { ph with velocity := { ph.velocity with
        x := ph.velocity.x * ph.airFriction, z := ph.velocity.z * ph.airFriction } }

/-- The body of the PhysicsSystem.update loop (PhysicsSystem.js) for one
    entity: skip static entities; save the previous position; process player
    movement; process jumping, or apply gravity when the entity has no Jump
    component and is not on the ground; integrate position by velocity; apply
    friction. -/
def PhysicsSystem.updateEntity (deltaTime : ℚ) (e : Entity) : Entity :=
  if e.physics.isStatic then e else
  let tr0 := e.transform.savePreviousPosition
  let ph0 := match e.playerControl with
    | some pc => processPlayerMovement e.physics pc
    | none => e.physics
  let step : Transform × Physics × Option Jump := match e.jump with
    | some j =>
        let r := processJumping tr0 ph0 j deltaTime
        (r.1, r.2.1, some r.2.2)
    | none =>
        if !ph0.isOnGround then
          (tr0, { ph0 with velocity := { ph0.velocity with y := ph0.velocity.y - ph0.gravity } }, none)
        else (tr0, ph0, none)
  let tr1 := step.1
  let ph1 := step.2.1
  let tr2 := { tr1 with position := tr1.position.add ph1.velocity }
  let ph2 := applyFriction ph1
  { e with transform := tr2, physics := ph2, jump := step.2.2 }

/-- The body of the JumpSystem.update loop (JumpSystem.ts) for one entity:
    landing clears both jump flags and zeroes velocity.y; past-apex flips
    jumping to falling; an entity off any surface that is neither jumping nor
    falling becomes falling. -/
def JumpSystem.updateEntity (ph : Physics) (j : Jump) : Physics × Jump :=
  let land := (j.isJumping || j.isFalling) && j.isOnSurface
  let ph1 := if land then { ph with velocity := { ph.velocity with y := 0 } } else ph
  let j1 := if land then { j with isJumping := false, isFalling := false } else j
  let j2 := if j1.isJumping && decide (ph1.velocity.y < 0) then
    { j1 with isJumping := false, isFalling := true } else j1
  let j3 := if !j2.isOnSurface && !j2.isJumping && !j2.isFalling then
    { j2 with isFalling := true } else j2
  (ph1, j3)

/-- Narrow-phase result record, from CollisionSystem.js: collided flag, unit
    normal pointing from the other shape toward the marble, and penetration. -/
structure CollisionResult where
  collided : Bool
  normal : Vec3
  penetration : ℚ
deriving Repr, DecidableEq

/-- A collision target as CollisionSystem.update sees it: its Transform, its
    collider trigger flag, optional Surface and Physics, and the narrow-phase
    result checkCollision produces for the marble-versus-this pair this pass
    (the geometric tests are modelled separately; the resolver consumes only
    this record, so the pass is stated over arbitrary narrow-phase results,
    which subsume the ones the geometry computes). -/
structure OtherEntity where
  transform : Transform
  isTrigger : Bool
  surface : Option Surface
  physics : Option Physics
  collision : CollisionResult
deriving Repr, DecidableEq

/-- CollisionSystem.respawnMarble: reset position to (0, marbleRadius, 0),
    zero the velocity, ground the jump state, and set isOnGround. -/
def respawnMarble (marbleRadius : ℚ) (tr : Transform) (ph : Physics) (j : Option Jump) :
    Transform × Physics × Option Jump :=
  let tr1 := { tr with position := ⟨0, marbleRadius, 0⟩ }
  let ph1 := { ph with velocity := ⟨0, 0, 0⟩ }
  let j1 := j.map fun jj => { jj with isJumping := false, isFalling := false, isOnSurface := true }
  let ph2 := { ph1 with isOnGround := true }
  (tr1, ph2, j1)

/-- CollisionSystem.checkBoundaryCollisions: inside the platform extent, snap
    to the ground when at or below marbleRadius + 0.1 while moving downward
    (bounce when faster than 0.05, else zero velocity.y); outside the extent,
    respawn once below y = -20. -/
def checkBoundaryCollisions (platformSize marbleRadius : ℚ) (tr : Transform)
    (ph : Physics) (j : Option Jump) : Transform × Physics × Option Jump :=
  if |tr.position.x| ≤ platformSize ∧ |tr.position.z| ≤ platformSize then
    if tr.position.y ≤ marbleRadius + 1/10 then
      if ph.velocity.y ≤ 0 then
        let j1 := j.map fun jj =>
          { jj with isOnSurface := true, isJumping := false, isFalling := false }
        let ph1 := { ph with isOnGround := true }
        let ph2 := if ph1.velocity.y < -(5/100) then
            { ph1 with velocity := { ph1.velocity with
                y := -ph1.velocity.y * ph1.bounceCoefficient } }
          else
            { ph1 with velocity := { ph1.velocity with y := 0 } }
        let tr1 := { tr with position := { tr.position with y := marbleRadius } }
        (tr1, ph2, j1)
      else (tr, ph, j)
    else (tr, ph, j)
  else if tr.position.y < -20 then
    respawnMarble marbleRadius tr ph j
  else (tr, ph, j)

/-- CollisionSystem.resolveCollision: skip triggers; compute the relative
    velocity dotted with the normal; when approaching, apply the impulse to
    the marble velocity and push the marble out by the penetration; when the
    normal is floor-like (normal.y > 0.1), set the ground and surface flags,
    cancel jumping only on downward velocity, apply surface friction to the
    horizontal velocity, and add a ramp slide force to velocity.z.  sinOf
    models Math.sin and is evaluated only at the ramp angle.  The other
    entity is returned alongside the marble state: the source assigns no
    field of it. -/
def resolveCollision (sinOf : ℚ → ℚ) (tr : Transform) (ph : Physics) (j : Option Jump)
    (o : OtherEntity) : (Transform × Physics × Option Jump) × OtherEntity :=
  if o.isTrigger then ((tr, ph, j), o) else
  let n := o.collision.normal
  let otherVel := (o.physics.map Physics.velocity).getD ⟨0, 0, 0⟩
  let relativeVelocity := ph.velocity.sub otherVel
  let dotProduct := relativeVelocity.dot n
  if dotProduct < 0 then
    let bounceFactor :=
      min ph.bounceCoefficient ((o.surface.map Surface.bounciness).getD ph.bounceCoefficient)
    let impulse := -(1 + bounceFactor) * dotProduct
    let ph1 := { ph with velocity := ph.velocity.add (Vec3.smul impulse n) }
    let tr1 := { tr with position := tr.position.add (Vec3.smul o.collision.penetration n) }
    if 1/10 < n.y then
      let j1 := j.map fun jj =>
        let ja := { jj with isOnSurface := true, isFalling := false }
        if ph1.velocity.y ≤ 0 then { ja with isJumping := false } else ja
      let ph2 := { ph1 with isOnGround := true }
      let frictionFactor := (o.surface.map Surface.friction).getD ph2.friction
      let ph3 := { ph2 with velocity := { ph2.velocity with
          x := ph2.velocity.x * frictionFactor, z := ph2.velocity.z * frictionFactor } }
      let ph4 := match o.surface with
        | some s =>
            if s.isRamp then
              { ph3 with velocity := { ph3.velocity with
                  z := ph3.velocity.z + sinOf s.rampAngle * ph3.gravity * s.slideFactor } }
            else ph3
        | none => ph3
      ((tr1, ph4, j1), o)
    else ((tr1, ph1, j), o)
  else ((tr, ph, j), o)

/-- One step of the per-target loop in CollisionSystem.update: resolve when
    the narrow phase collided, else leave the marble state alone; the target
    is carried through either way. -/
def collisionStep (sinOf : ℚ → ℚ) (acc : (Transform × Physics × Option Jump) × List OtherEntity)
    (o : OtherEntity) : (Transform × Physics × Option Jump) × List OtherEntity :=
  if o.collision.collided then
    let r := resolveCollision sinOf acc.1.1 acc.1.2.1 acc.1.2.2 o
    (r.1, acc.2 ++ [r.2])
  else
    (acc.1, acc.2 ++ [o])

/-- The marble pass of CollisionSystem.update: reset isOnSurface and
    isOnGround, run the boundary check, then fold the resolver over every
    other collider in order.  Returns the updated marble and the (untouched)
    targets. -/
def CollisionSystem.update (platformSize marbleRadius : ℚ) (sinOf : ℚ → ℚ)
    (marble : Entity) (others : List OtherEntity) : Entity × List OtherEntity :=
  let j0 := marble.jump.map fun jj => { jj with isOnSurface := false }
  let ph0 := { marble.physics with isOnGround := false }
  let b := checkBoundaryCollisions platformSize marbleRadius marble.transform ph0 j0
  let r := others.foldl (collisionStep sinOf) (b, [])
  ({ marble with transform := r.1.1, physics := r.1.2.1, jump := r.1.2.2 }, r.2)

/-- Clamp of the local sphere center to the box half extents: the closest
    point of the box to the center (CollisionSystem.checkSphereBoxCollision). -/
def boxClosestPoint (l : Vec3) (halfWidth halfHeight halfDepth : ℚ) : Vec3 :=
  ⟨max (-halfWidth) (min halfWidth l.x),
   max (-halfHeight) (min halfHeight l.y),
   max (-halfDepth) (min halfDepth l.z)⟩

/-- CollisionSystem.checkSphereBoxCollision for an unrotated box (zero Euler
    rotation, for which the source skips both rotation steps, so world frame
    and box local frame agree).  dist is the value the source computes as
    localSpherePos.distanceTo(closestPoint); it is passed as an argument
    because a square root is irrational in general, and every theorem
    constrains it by 0 <= dist and dist^2 = squared distance. -/
def checkSphereBoxCollision (spherePos : Vec3) (sphereRadius : ℚ) (boxPos : Vec3)
    (boxWidth boxHeight boxDepth : ℚ) (dist : ℚ) : CollisionResult :=
  let localSpherePos := spherePos.sub boxPos
  let halfWidth := boxWidth / 2
  let halfHeight := boxHeight / 2
  let halfDepth := boxDepth / 2
  let closestPoint := boxClosestPoint localSpherePos halfWidth halfHeight halfDepth
  if dist < sphereRadius then
    let normal :=
      if 0 < dist then Vec3.smul (1 / dist) (localSpherePos.sub closestPoint)
      else
        let dx := halfWidth - |localSpherePos.x|
        let dy := halfHeight - |localSpherePos.y|
        let dz := halfDepth - |localSpherePos.z|
        if dx < dy ∧ dx < dz then ⟨msign localSpherePos.x, 0, 0⟩
        else if dy < dx ∧ dy < dz then ⟨0, msign localSpherePos.y, 0⟩
        else ⟨0, 0, msign localSpherePos.z⟩
    { collided := true, normal := normal, penetration := sphereRadius - dist }
  else
    { collided := false, normal := ⟨0, 0, 0⟩, penetration := 0 }

/-- Closest point on the torus ring center circle to the local sphere center,
    as a Vector2 in the ring (x,z) plane; d is the length of the (x,z)
    projection of the center (checkSphereTorusCollision). -/
def torusClosestPointOnCircle (l : Vec3) (torusRadius d : ℚ) : ℚ × ℚ :=
  if 0 < d then (l.x / d * torusRadius, l.z / d * torusRadius) else (0, 0)

/-- The ring circle point lifted to 3D at the same height as the local sphere
    center, before the tube offset (checkSphereTorusCollision). -/
def torusCirclePoint (l : Vec3) (torusRadius d : ℚ) : Vec3 :=
  ⟨(torusClosestPointOnCircle l torusRadius d).1, l.y,
   (torusClosestPointOnCircle l torusRadius d).2⟩

/-- directionFromCircle: the vector from the ring circle point to the local
    sphere center (checkSphereTorusCollision). -/
def torusDirFromCircle (l : Vec3) (torusRadius d : ℚ) : Vec3 :=
  l.sub (torusCirclePoint l torusRadius d)

/-- The closest point on the torus surface: the circle point offset by the
    tube radius toward the sphere center when the direction is nonzero;
    dirLen is the length of directionFromCircle (checkSphereTorusCollision). -/
def torusClosestPoint (l : Vec3) (torusRadius torusTube d dirLen : ℚ) : Vec3 :=
  let cp := torusCirclePoint l torusRadius d
  let dir := torusDirFromCircle l torusRadius d
  if 0 < dirLen then cp.add (Vec3.smul (torusTube / dirLen) dir) else cp

/-- CollisionSystem.checkSphereTorusCollision, stated in the torus local frame
    (a zero Euler rotation makes the source's rotation matrices the identity,
    so local and world coordinates agree).  The three square roots the source
    takes are passed as arguments: d for sphereXZ.length(), dirLen for
    directionFromCircle.length(), dist for the distance of the local center
    to the torus surface closest point; theorems constrain each by being
    nonnegative with the matching square. -/
def checkSphereTorusCollision (l : Vec3) (sphereRadius torusRadius torusTube : ℚ)
    (d dirLen dist : ℚ) : CollisionResult :=
  let innerRadius := torusRadius - torusTube - sphereRadius
  if d < innerRadius ∧ |l.y| < torusTube + sphereRadius then
    { collided := false, normal := ⟨0, 0, 0⟩, penetration := 0 }
  else
    let closestPoint := torusClosestPoint l torusRadius torusTube d dirLen
    if dist < sphereRadius then
      let normal :=
        if 0 < dist then Vec3.smul (1 / dist) (l.sub closestPoint) else ⟨0, 1, 0⟩
      { collided := true, normal := normal, penetration := sphereRadius - dist }
    else
      { collided := false, normal := ⟨0, 0, 0⟩, penetration := 0 }

/-- A nonnegative rational value whose square is a: the exact value of the
    square root the source takes (used to constrain the length arguments). -/
def IsSqrtOf (v a : ℚ) : Prop :=
  0 ≤ v ∧ v ^ 2 = a

/-- A marble with a pending jump request on the ground: jumpPower 1/2,
    gravity 1/4, friction 1, bounce 1/2, at rest at (0, 1/2, 0). -/
def c1marble : Entity :=
  ⟨⟨⟨0, 1/2, 0⟩, ⟨0, 1/2, 0⟩, ⟨0, 0, 0⟩⟩,
   ⟨⟨0, 0, 0⟩, 1/4, 1, 1, 1/2, true, false⟩,
   none,
   some ⟨1/2, false, false, true, true, true, 0, 1/5⟩⟩

/-- Initial grounded marble for the jump-state reachability trace: at rest at
    (0, 1/2, 0), gravity 1/4, friction 1, bounce 1/2, jumpPower 1/2, player
    input pushing toward negative x. -/
def c3marble0 : Entity :=
  ⟨⟨⟨0, 1/2, 0⟩, ⟨0, 1/2, 0⟩, ⟨0, 0, 0⟩⟩,
   ⟨⟨0, 0, 0⟩, 1/4, 1, 1, 1/2, true, false⟩,
   some ⟨1, 1, ⟨-1, 0⟩⟩,
   some ⟨1/2, false, false, true, false, true, 0, 1/5⟩⟩

/-- A plain non-ramp surface: friction 1, bounciness 1/2. -/
def c3surface : Surface := ⟨1, 1/2, true, false, 0, 1⟩

/-- First collision target of the trace: a static obstacle struck while the
    marble moves toward negative x with small upward velocity; the narrow
    phase yields the unit floor-like normal (3/5, 4/5, 0) (realizable as a
    sphere-versus-sphere contact with the other center offset by
    (99/100) * (-3/5, -4/5, 0) from the marble center). -/
def c3obstacle1 : OtherEntity :=
  ⟨⟨⟨0, 0, 0⟩, ⟨0, 0, 0⟩, ⟨0, 0, 0⟩⟩, false, some c3surface, none,
   ⟨true, ⟨3/5, 4/5, 0⟩, 1/100⟩⟩

/-- Second collision target of the trace: a ceiling box directly above the
    marble; the narrow phase yields the downward normal (0, -1, 0)
    (realizable as sphere-versus-box with the box bottom face overhead). -/
def c3obstacle2 : OtherEntity :=
  ⟨⟨⟨0, 0, 0⟩, ⟨0, 0, 0⟩, ⟨0, 0, 0⟩⟩, false, some c3surface, none,
   ⟨true, ⟨0, -1, 0⟩, 1/100⟩⟩

/-- Trace step 1: the jump request is latched (guard holds: grounded, not
    jumping, cooldown 0). -/
def c3afterInput : Entity := { c3marble0 with jump := c3marble0.jump.map Jump.requestJump }

/-- Trace step 2: one integrator pass executes the launch. -/
def c3tick1 : Entity := PhysicsSystem.updateEntity 1 c3afterInput

/-- Trace step 3: one resolver pass: the floor-like contact re-grounds the
    marble while its post-impulse velocity.y is still positive, so isJumping
    survives; the ceiling contact then bounces velocity.y negative. -/
def c3tick2 : Entity :=
  (CollisionSystem.update 10 (1/2) (fun _ => 0) c3tick1 [c3obstacle1, c3obstacle2]).1

/-- Trace step 4: one integrator pass: the apex check fires while grounded
    (isJumping with negative velocity.y), leaving isOnSurface and isFalling
    both true; the cooldown also runs out. -/
def c3tick3 : Entity := PhysicsSystem.updateEntity 1 c3tick2

/-- Trace step 5: the guard holds again (on surface, not jumping, cooldown
    spent), so a new request is latched while isFalling is still true. -/
def c3afterInput2 : Entity := { c3tick3 with jump := c3tick3.jump.map Jump.requestJump }

/-- Trace step 6: the integrator executes the launch, which sets isJumping
    without clearing isFalling. -/
def c3final : Entity := PhysicsSystem.updateEntity 1 c3afterInput2

/-- A static marble parked outside the platform extent below the respawn
    threshold. -/
def c4marble : Entity :=
  ⟨⟨⟨100, -100, 0⟩, ⟨100, -100, 0⟩, ⟨0, 0, 0⟩⟩,
   ⟨⟨0, 0, 0⟩, 1/4, 1, 1, 1/2, false, true⟩,
   none,
   some ⟨1/2, false, false, true, false, true, 0, 1/5⟩⟩

/-- A grounded entity at rest with groundFriction 1 receiving a unit
    movement intent along x. -/
def c8marble : Entity :=
  ⟨⟨⟨0, 1/2, 0⟩, ⟨0, 1/2, 0⟩, ⟨0, 0, 0⟩⟩,
   ⟨⟨0, 0, 0⟩, 1/4, 1, 1, 1/2, true, false⟩,
   some ⟨1, 1, ⟨1, 0⟩⟩,
   none⟩

/-- Uniqueness of nonnegative square roots over the rationals. -/
lemma sqrt_value_eq {v c : ℚ} (hv : 0 ≤ v) (hc : 0 ≤ c) (h : v ^ 2 = c ^ 2) : v = c := by
  rcases sq_eq_sq_iff_eq_or_eq_neg.mp h with h1 | h1
  · exact h1
  · have : v = 0 := le_antisymm (by linarith) hv
    have : c = 0 := by linarith
    simp [h1, this]

/-- resolveCollision assigns no field of the other entity. -/
lemma resolveCollision_other (sinOf : ℚ → ℚ) (tr : Transform) (ph : Physics)
    (j : Option Jump) (o : OtherEntity) :
    (resolveCollision sinOf tr ph j o).2 = o := by
  unfold resolveCollision
  dsimp only
  repeat' split
  all_goals rfl

/-- The per-target fold of CollisionSystem.update appends every target back
    unchanged. -/
lemma collisionFold_others (sinOf : ℚ → ℚ) (others : List OtherEntity)
    (m : Transform × Physics × Option Jump) (pre : List OtherEntity) :
    ((others.foldl (collisionStep sinOf) (m, pre)).2) = pre ++ others := by
  induction others generalizing m pre with
  | nil => simp
  | cons o os ih =>
      rw [List.foldl_cons]
      rcases hsp : collisionStep sinOf (m, pre) o with ⟨m1, pre1⟩
      have h2 : pre1 = pre ++ [o] := by
        have hs := congrArg Prod.snd hsp
        simp only at hs
        rw [← hs]
        unfold collisionStep
        by_cases h : o.collision.collided
        · simp [h, resolveCollision_other]
        · simp [h]
      rw [ih m1 pre1, h2]
      simp

/-- C6: the claim reads: for every JumpState and every dt >= 0, one cooldown
    update during the integrator pass leaves jumpCooldown equal to
    max(0, old jumpCooldown - dt), never negative.  The cited
    Jump.js updateCooldown has no floor: from cooldown 1/10 an update with
    dt = 1/5 leaves -1/10 < 0, while the TypeScript twin Jump.ts (the module
    the jest suite exercises, which expects exactly 0 after stepping past
    zero) yields max(0, 1/10 - 1/5) = 0 as the claim states. -/
theorem updateCooldown_no_floor :
    (Jump.updateCooldown ⟨1/2, false, false, true, false, true, 1/10, 1/5⟩ (1/5)).jumpCooldown
        = -(1/10)
    ∧ (Jump.updateCooldown ⟨1/2, false, false, true, false, true, 1/10, 1/5⟩ (1/5)).jumpCooldown
        < 0
    ∧ (JumpTS.updateCooldown ⟨1/2, false, false, true, false, true, 1/10, 1/5⟩ (1/5)).jumpCooldown
        = max 0 ((1/10 : ℚ) - 1/5) := by
  refine ⟨?_, ?_, ?_⟩ <;> norm_num [Jump.updateCooldown, JumpTS.updateCooldown]

/-- C9: the resolver pass mutates only the marble: every collision target
    comes out of CollisionSystem.update with its Transform, Surface and
    Physics records exactly as they went in, for every marble state, every
    target list (arbitrary narrow-phase results, triggers or not), every
    platform extent and radius, and every sine evaluation. -/
theorem resolver_mutates_only_marble (platformSize marbleRadius : ℚ) (sinOf : ℚ → ℚ)
    (marble : Entity) (others : List OtherEntity) :
    (CollisionSystem.update platformSize marbleRadius sinOf marble others).2 = others := by
  unfold CollisionSystem.update
  rw [collisionFold_others]
  simp

/-- C10: the jump guard (canJump, isOnSurface, not isJumping, cooldown
    spent) is evaluated only when the request is latched: requestJump latches
    exactly when the guard holds (or keeps an earlier latch), and once
    jumpRequested is true the next integrator call executes the launch
    unconditionally: the execute step fires, sets isJumping and clears
    isOnSurface, for arbitrary current isOnSurface and cooldown, and the call
    ends with velocity.y = jumpPower - gravity (the launch assignment of
    jumpPower followed by the airborne gravity step) and isOnSurface still
    false. -/
theorem jump_guard_only_at_request_time (tr : Transform) (ph : Physics) (j : Jump) (dt : ℚ) :
    (Jump.requestJump j).jumpRequested
      = (j.jumpRequested
          || (j.canJump && j.isOnSurface && !j.isJumping && decide (j.jumpCooldown ≤ 0)))
    ∧ (j.jumpRequested = true →
        ((j.updateCooldown dt).executeJumpIfRequested).2 = true
        ∧ ((j.updateCooldown dt).executeJumpIfRequested).1.isJumping = true
        ∧ ((j.updateCooldown dt).executeJumpIfRequested).1.isOnSurface = false
        ∧ (processJumping tr ph j dt).2.1.velocity.y = j.jumpPower - ph.gravity
        ∧ (processJumping tr ph j dt).2.2.isOnSurface = false) := by
  constructor
  · unfold Jump.requestJump
    cases hb : (j.canJump && j.isOnSurface && !j.isJumping && decide (j.jumpCooldown ≤ 0)) <;>
      simp [hb]
  · intro h
    have hreq : (j.updateCooldown dt).jumpRequested = true := by
      unfold Jump.updateCooldown
      split <;> simpa using h
    have hpow : (j.updateCooldown dt).jumpPower = j.jumpPower := by
      unfold Jump.updateCooldown
      split <;> rfl
    refine ⟨?_, ?_, ?_, ?_, ?_⟩ <;>
      simp [processJumping, Jump.executeJumpIfRequested, hreq, hpow] <;>
      split <;> simp

/-- C10 witness: a state with a latched request that is airborne
    (isOnSurface = false) with a positive cooldown (5) still launches on the
    next integrator call. -/
theorem jump_guard_only_at_request_time_witness :
    (((⟨1/2, false, false, false, true, true, 5, 1/5⟩ : Jump).updateCooldown 1).executeJumpIfRequested).2 = true
    ∧ (((⟨1/2, false, false, false, true, true, 5, 1/5⟩ : Jump).updateCooldown 1).executeJumpIfRequested).1.isJumping = true
    ∧ (((⟨1/2, false, false, false, true, true, 5, 1/5⟩ : Jump).updateCooldown 1).executeJumpIfRequested).1.isOnSurface = false
    ∧ (processJumping ⟨⟨0, 0, 0⟩, ⟨0, 0, 0⟩, ⟨0, 0, 0⟩⟩ ⟨⟨0, 0, 0⟩, 1/4, 1, 1, 1/2, false, false⟩
        ⟨1/2, false, false, false, true, true, 5, 1/5⟩ 1).2.1.velocity.y = 1/2 - 1/4
    ∧ (processJumping ⟨⟨0, 0, 0⟩, ⟨0, 0, 0⟩, ⟨0, 0, 0⟩⟩ ⟨⟨0, 0, 0⟩, 1/4, 1, 1, 1/2, false, false⟩
        ⟨1/2, false, false, false, true, true, 5, 1/5⟩ 1).2.2.isOnSurface = false := by
  exact (jump_guard_only_at_request_time ⟨⟨0, 0, 0⟩, ⟨0, 0, 0⟩, ⟨0, 0, 0⟩⟩
    ⟨⟨0, 0, 0⟩, 1/4, 1, 1, 1/2, false, false⟩ ⟨1/2, false, false, false, true, true, 5, 1/5⟩ 1).2 rfl

/-- C1 counterexample: the claim asserts velocity.y equals jumpPower exactly
    at the end of the launching integrator call; on the marble below
    (jumpPower 1/2, gravity 1/4, grounded with a pending request) the call
    ends with velocity.y = 1/4, because the launch clears isOnSurface and the
    same call then applies gravity. -/
theorem jump_launch_velocity_not_jumpPower :
    c1marble.jump = some ⟨1/2, false, false, true, true, true, 0, 1/5⟩
    ∧ (PhysicsSystem.updateEntity 1 c1marble).physics.velocity.y = 1/4
    ∧ ¬ ((PhysicsSystem.updateEntity 1 c1marble).physics.velocity.y = 1/2) := by
  refine ⟨rfl, ?_, ?_⟩ <;>
    norm_num [PhysicsSystem.updateEntity, processJumping, Jump.updateCooldown,
      Jump.executeJumpIfRequested, applyFriction, Transform.savePreviousPosition,
      Vec3.add, c1marble]

/-- C1 (amended): from isOnSurface = true, isJumping = false,
    jumpCooldown <= 0 and a pending request, one integrator call executes the
    launch: the resulting jump state has isJumping = true, isOnSurface =
    false, the request cleared and the cooldown rearmed, and velocity.y ends
    the call at jumpPower - gravityAccel (not jumpPower: the call applies
    gravity right after the launch clears isOnSurface), provided
    gravityAccel <= jumpPower so that the apex check does not fire in the
    same call. -/
theorem jump_launch_one_integrator_call (dt : ℚ) (e : Entity) (j : Jump)
    (hj : e.jump = some j) (hstat : e.physics.isStatic = false)
    (hsurf : j.isOnSurface = true) (hnj : j.isJumping = false)
    (hcd : j.jumpCooldown ≤ 0) (hreq : j.jumpRequested = true)
    (hg : e.physics.gravity ≤ j.jumpPower) :
    (PhysicsSystem.updateEntity dt e).physics.velocity.y = j.jumpPower - e.physics.gravity
    ∧ (PhysicsSystem.updateEntity dt e).jump =
        some { j with isJumping := true, isOnSurface := false, jumpRequested := false,
                      jumpCooldown := j.jumpCooldownTime } := by
  obtain ⟨tr, ph, pc, jo⟩ := e
  simp only at hj hstat hg
  subst hj
  have hcd2 : ¬ (0 < j.jumpCooldown) := not_lt.mpr hcd
  have hg2 : ¬ (j.jumpPower - ph.gravity < 0) := not_lt.mpr (by linarith)
  cases pc <;> cases hground : ph.isOnGround <;>
    simp [PhysicsSystem.updateEntity, processJumping, processPlayerMovement,
      Jump.updateCooldown, Jump.executeJumpIfRequested, applyFriction,
      Transform.savePreviousPosition, Vec3.add, hstat, hreq, hcd2, hg2, hground]

/-- C1 witness: the amended statement evaluated on the concrete marble
    (jumpPower 1/2, gravity 1/4, grounded, request pending). -/
theorem jump_launch_one_integrator_call_witness :
    (PhysicsSystem.updateEntity 1 c1marble).physics.velocity.y = 1/2 - 1/4
    ∧ (PhysicsSystem.updateEntity 1 c1marble).jump =
        some ⟨1/2, true, false, false, false, true, 1/5, 1/5⟩ := by
  have h := jump_launch_one_integrator_call 1 c1marble
    ⟨1/2, false, false, true, true, true, 0, 1/5⟩ rfl rfl rfl rfl (by norm_num) rfl
    (by norm_num [c1marble])
  simpa [c1marble] using h

/-- processJumping assigns only velocity.y and the jump flags: the horizontal
    velocity components, the friction coefficient and the ground flag pass
    through untouched. -/
lemma processJumping_preserves (tr : Transform) (ph : Physics) (j : Jump) (dt : ℚ) :
    (processJumping tr ph j dt).2.1.velocity.x = ph.velocity.x
    ∧ (processJumping tr ph j dt).2.1.velocity.z = ph.velocity.z
    ∧ (processJumping tr ph j dt).2.1.friction = ph.friction
    ∧ (processJumping tr ph j dt).2.1.isOnGround = ph.isOnGround := by
  unfold processJumping
  dsimp only
  repeat' split
  all_goals exact ⟨rfl, rfl, rfl, rfl⟩

/-- C4 counterexample: the claim extends the isStatic exemption to the marble
    role, but the resolver ignores isStatic on the marble: a static marble
    parked at (100, -100, 0), outside the platform extent and below the
    respawn threshold, is moved to (0, marbleRadius, 0) by one resolver pass. -/
theorem static_marble_moved_by_resolver :
    c4marble.physics.isStatic = true
    ∧ c4marble.transform.position = ⟨100, -100, 0⟩
    ∧ (CollisionSystem.update 10 (1/2) (fun _ => 0) c4marble []).1.transform.position
        = ⟨0, 1/2, 0⟩
    ∧ ((⟨0, 1/2, 0⟩ : Vec3) ≠ ⟨100, -100, 0⟩) := by
  refine ⟨rfl, rfl, ?_, ?_⟩
  · norm_num [CollisionSystem.update, checkBoundaryCollisions, respawnMarble, c4marble,
      abs_le]
  · simp only [ne_eq, Vec3.mk.injEq, not_and]
    norm_num

/-- C4 (amended): the integrator never changes a static object (it skips it
    whole, position and velocity included), and the resolver pass never
    changes any non-marble object.  The exemption does not cover a static
    marble: the resolver ignores isStatic for the marble itself, whose
    position and velocity can still be changed by the boundary snap, the
    respawn and the pairwise impulse (see the counterexample). -/
theorem static_objects_preserved (dt platformSize marbleRadius : ℚ) (sinOf : ℚ → ℚ)
    (e marble : Entity) (others : List OtherEntity)
    (hstatic : e.physics.isStatic = true) :
    PhysicsSystem.updateEntity dt e = e
    ∧ (CollisionSystem.update platformSize marbleRadius sinOf marble others).2 = others := by
  constructor
  · unfold PhysicsSystem.updateEntity
    simp [hstatic]
  · unfold CollisionSystem.update
    rw [collisionFold_others]
    simp

/-- C4 witness: the amended statement at the concrete static marble, one
    integrator tick and an empty target list. -/
theorem static_objects_preserved_witness :
    PhysicsSystem.updateEntity 1 c4marble = c4marble
    ∧ (CollisionSystem.update 10 (1/2) (fun _ => 0) c4marble []).2 = [] := by
  exact static_objects_preserved 1 10 (1/2) (fun _ => 0) c4marble c4marble [] rfl

/-- The horizontal velocity of a grounded, non-static entity with zero
    movement intent after one integrator tick: both components are exactly
    the old value times groundFriction. -/
lemma updateEntity_ground_friction (dt : ℚ) (tr : Transform) (ph : Physics)
    (pc : Option PlayerControl) (jo : Option Jump)
    (hstat : ph.isStatic = false) (hground : ph.isOnGround = true)
    (hpc : ∀ p ∈ pc, p.moveDirection.x = 0 ∧ p.moveDirection.z = 0) :
    (PhysicsSystem.updateEntity dt ⟨tr, ph, pc, jo⟩).physics.velocity.x
        = ph.velocity.x * ph.friction
    ∧ (PhysicsSystem.updateEntity dt ⟨tr, ph, pc, jo⟩).physics.velocity.z
        = ph.velocity.z * ph.friction := by
  cases pc with
  | none =>
      cases jo with
      | none =>
          simp [PhysicsSystem.updateEntity, applyFriction, hstat, hground]
      | some j =>
          have hp := processJumping_preserves tr.savePreviousPosition ph j dt
          simp only [PhysicsSystem.updateEntity, hstat, Bool.false_eq_true, if_false]
          constructor <;>
            simp [applyFriction, hp.1, hp.2.1, hp.2.2.1, hp.2.2.2, hground]
  | some p =>
      obtain ⟨hx0, hz0⟩ := hpc p (by simp)
      have hppm : processPlayerMovement ph p = ph := by
        unfold processPlayerMovement
        cases ph with
        | mk v g f af bc og st =>
            cases v with
            | mk vx vy vz => simp [hx0, hz0]
      cases jo with
      | none =>
          simp [PhysicsSystem.updateEntity, applyFriction, hstat, hground, hppm]
      | some j =>
          have hp := processJumping_preserves tr.savePreviousPosition ph j dt
          simp only [PhysicsSystem.updateEntity, hstat, Bool.false_eq_true, if_false, hppm]
          constructor <;>
            simp [applyFriction, hp.1, hp.2.1, hp.2.2.1, hp.2.2.2, hground]

/-- C8 counterexample: the claim quantifies over every isOnGround object, but
    an object receiving a movement intent that tick can leave with a larger
    horizontal speed than its whole prior velocity magnitude: a resting
    grounded entity (friction 1) with unit intent along x ends the tick with
    velocity.x = 1 while the prior magnitude was 0. -/
theorem friction_bound_fails_with_input :
    c8marble.physics.isOnGround = true
    ∧ (0 < c8marble.physics.friction ∧ c8marble.physics.friction ≤ 1)
    ∧ (PhysicsSystem.updateEntity 1 c8marble).physics.velocity.x ^ 2
        > c8marble.physics.velocity.normSq := by
  refine ⟨rfl, by norm_num [c8marble], ?_⟩
  norm_num [PhysicsSystem.updateEntity, processPlayerMovement, applyFriction,
    Transform.savePreviousPosition, Vec3.add, Vec3.normSq, c8marble]

/-- C8 (amended): for a grounded object with groundFriction in (0,1] that
    receives no movement intent this tick (no PlayerControl, or a zero
    direction), the squared horizontal components after one integrator tick
    are bounded by the squared velocity magnitude before it; and the friction
    step never scales velocity.y, for any physics state. -/
theorem friction_bound_no_input (dt : ℚ) (e : Entity)
    (hground : e.physics.isOnGround = true)
    (hf0 : 0 < e.physics.friction) (hf1 : e.physics.friction ≤ 1)
    (hpc : ∀ p ∈ e.playerControl, p.moveDirection.x = 0 ∧ p.moveDirection.z = 0) :
    (PhysicsSystem.updateEntity dt e).physics.velocity.x ^ 2 ≤ e.physics.velocity.normSq
    ∧ (PhysicsSystem.updateEntity dt e).physics.velocity.z ^ 2 ≤ e.physics.velocity.normSq
    ∧ (∀ ph : Physics, (applyFriction ph).velocity.y = ph.velocity.y) := by
  obtain ⟨tr, ph, pc, jo⟩ := e
  simp only at hground hf0 hf1 hpc
  have hf2 : ph.friction ^ 2 ≤ 1 := by nlinarith
  have hyfric : ∀ ph2 : Physics, (applyFriction ph2).velocity.y = ph2.velocity.y := by
    intro ph2
    unfold applyFriction
    split <;> rfl
  by_cases hstat : ph.isStatic = true
  · refine ⟨?_, ?_, hyfric⟩ <;>
      · simp only [PhysicsSystem.updateEntity, hstat, if_true, Vec3.normSq]
        nlinarith [sq_nonneg ph.velocity.x, sq_nonneg ph.velocity.y, sq_nonneg ph.velocity.z]
  · have hstat2 : ph.isStatic = false := by simpa using hstat
    obtain ⟨hx, hz⟩ := updateEntity_ground_friction dt tr ph pc jo hstat2 hground hpc
    refine ⟨?_, ?_, hyfric⟩
    · rw [hx]
      simp only [Vec3.normSq]
      nlinarith [sq_nonneg ph.velocity.y, sq_nonneg ph.velocity.z,
        mul_le_mul_of_nonneg_left hf2 (sq_nonneg ph.velocity.x)]
    · rw [hz]
      simp only [Vec3.normSq]
      nlinarith [sq_nonneg ph.velocity.y, sq_nonneg ph.velocity.x,
        mul_le_mul_of_nonneg_left hf2 (sq_nonneg ph.velocity.z)]

/-- C8 witness: the amended statement at a concrete grounded entity with
    velocity (3, -2, 4), friction 1/2 and a PlayerControl carrying a zero
    movement direction. -/
theorem friction_bound_no_input_witness :
    (PhysicsSystem.updateEntity 1
        ⟨⟨⟨0, 1/2, 0⟩, ⟨0, 1/2, 0⟩, ⟨0, 0, 0⟩⟩,
         ⟨⟨3, -2, 4⟩, 1/4, 1/2, 1, 1/2, true, false⟩,
         some ⟨1, 1, ⟨0, 0⟩⟩, none⟩).physics.velocity.x ^ 2
      ≤ (⟨⟨3, -2, 4⟩, 1/4, 1/2, 1, 1/2, true, false⟩ : Physics).velocity.normSq
    ∧ (PhysicsSystem.updateEntity 1
        ⟨⟨⟨0, 1/2, 0⟩, ⟨0, 1/2, 0⟩, ⟨0, 0, 0⟩⟩,
         ⟨⟨3, -2, 4⟩, 1/4, 1/2, 1, 1/2, true, false⟩,
         some ⟨1, 1, ⟨0, 0⟩⟩, none⟩).physics.velocity.z ^ 2
      ≤ (⟨⟨3, -2, 4⟩, 1/4, 1/2, 1, 1/2, true, false⟩ : Physics).velocity.normSq
    ∧ (∀ ph : Physics, (applyFriction ph).velocity.y = ph.velocity.y) := by
  exact friction_bound_no_input 1
    ⟨⟨⟨0, 1/2, 0⟩, ⟨0, 1/2, 0⟩, ⟨0, 0, 0⟩⟩,
     ⟨⟨3, -2, 4⟩, 1/4, 1/2, 1, 1/2, true, false⟩,
     some ⟨1, 1, ⟨0, 0⟩⟩, none⟩ rfl (by norm_num) (by norm_num) (by simp)

/-- C7: a marble outside the platform half extent in x or z with position.y
    below -20 is respawned by one resolver pass: position (0, marbleRadius,
    0), velocity zero, isOnGround true, and the jump state grounded
    (isOnSurface true, isJumping and isFalling false); and respawning the
    already-respawned marble changes nothing. -/
theorem respawn_pass_and_idempotent (platformSize marbleRadius : ℚ) (sinOf : ℚ → ℚ)
    (e : Entity) (j : Jump) (hj : e.jump = some j)
    (hout : ¬ (|e.transform.position.x| ≤ platformSize
                ∧ |e.transform.position.z| ≤ platformSize))
    (hy : e.transform.position.y < -20) :
    (CollisionSystem.update platformSize marbleRadius sinOf e []).1
      = { e with
          transform := { e.transform with position := ⟨0, marbleRadius, 0⟩ },
          physics := { e.physics with velocity := ⟨0, 0, 0⟩, isOnGround := true },
          jump := some { j with isOnSurface := true, isJumping := false, isFalling := false } }
    ∧ respawnMarble marbleRadius
        { e.transform with position := ⟨0, marbleRadius, 0⟩ }
        { e.physics with velocity := ⟨0, 0, 0⟩, isOnGround := true }
        (some { j with isOnSurface := true, isJumping := false, isFalling := false })
      = ({ e.transform with position := ⟨0, marbleRadius, 0⟩ },
         { e.physics with velocity := ⟨0, 0, 0⟩, isOnGround := true },
         some { j with isOnSurface := true, isJumping := false, isFalling := false }) := by
  constructor
  · obtain ⟨tr, ph, pc, jo⟩ := e
    simp only at hj hout hy
    subst hj
    simp [CollisionSystem.update, checkBoundaryCollisions, respawnMarble, hout, hy]
  · rfl

/-- A non-static marble fallen to (100, -100, 0), mid-fall jump state. -/
def c7marble : Entity :=
  ⟨⟨⟨100, -100, 0⟩, ⟨100, -99, 0⟩, ⟨0, 0, 0⟩⟩,
   ⟨⟨0, -3, 0⟩, 1/4, 1, 1, 1/2, false, false⟩,
   none,
   some ⟨1/2, false, true, false, false, true, 0, 1/5⟩⟩

/-- C7 witness: the respawn theorem at the concrete fallen marble with
    platform extent 10 and radius 1/2. -/
theorem respawn_pass_and_idempotent_witness :
    (CollisionSystem.update 10 (1/2) (fun _ => 0) c7marble []).1
      = { c7marble with
          transform := { c7marble.transform with position := ⟨0, 1/2, 0⟩ },
          physics := { c7marble.physics with velocity := ⟨0, 0, 0⟩, isOnGround := true },
          jump := some ⟨1/2, false, false, true, false, true, 0, 1/5⟩ }
    ∧ respawnMarble (1/2)
        { c7marble.transform with position := ⟨0, 1/2, 0⟩ }
        { c7marble.physics with velocity := ⟨0, 0, 0⟩, isOnGround := true }
        (some ⟨1/2, false, false, true, false, true, 0, 1/5⟩)
      = ({ c7marble.transform with position := ⟨0, 1/2, 0⟩ },
         { c7marble.physics with velocity := ⟨0, 0, 0⟩, isOnGround := true },
         some ⟨1/2, false, false, true, false, true, 0, 1/5⟩) := by
  have h := respawn_pass_and_idempotent 10 (1/2) (fun _ => 0) c7marble
    ⟨1/2, false, true, false, false, true, 0, 1/5⟩ rfl
    (by norm_num [c7marble]) (by norm_num [c7marble])
  simpa [c7marble] using h

/-- C3: the jump state machine reaches isJumping and isFalling simultaneously
    true from the initial Grounded state.  The trace: latch a request and
    launch; in one resolver pass a floor-like contact (normal (3/5,4/5,0))
    re-grounds the marble while its post-impulse velocity.y is still positive
    so isJumping survives, then a ceiling contact (normal (0,-1,0)) bounces
    velocity.y negative; the next integrator pass fires the apex flip while
    isOnSurface is true, leaving isOnSurface and isFalling both true; the
    guard then admits a fresh request, and the launch sets isJumping without
    clearing isFalling. -/
theorem jump_invariant_violation_trace :
    c3marble0.jump = some ⟨1/2, false, false, true, false, true, 0, 1/5⟩
    ∧ c3final.jump = some ⟨1/2, true, true, false, false, true, 1/5, 1/5⟩
    ∧ (c3final.jump.map fun j => j.isJumping && j.isFalling) = some true := by
  have h1 : c3afterInput =
      ⟨⟨⟨0, 1/2, 0⟩, ⟨0, 1/2, 0⟩, ⟨0, 0, 0⟩⟩,
       ⟨⟨0, 0, 0⟩, 1/4, 1, 1, 1/2, true, false⟩,
       some ⟨1, 1, ⟨-1, 0⟩⟩,
       some ⟨1/2, false, false, true, true, true, 0, 1/5⟩⟩ := by
    norm_num [c3afterInput, c3marble0, Jump.requestJump]
  have h2 : c3tick1 =
      ⟨⟨⟨-1, 4/5, 0⟩, ⟨0, 1/2, 0⟩, ⟨0, 0, 0⟩⟩,
       ⟨⟨-1, 1/4, 0⟩, 1/4, 1, 1, 1/2, true, false⟩,
       some ⟨1, 1, ⟨-1, 0⟩⟩,
       some ⟨1/2, true, false, false, false, true, 1/5, 1/5⟩⟩ := by
    rw [c3tick1, h1]
    norm_num [PhysicsSystem.updateEntity, processPlayerMovement, processJumping,
      Jump.updateCooldown, Jump.executeJumpIfRequested, applyFriction,
      Transform.savePreviousPosition, Vec3.add]
  have h3 : c3tick2 =
      ⟨⟨⟨-497/500, 399/500, 0⟩, ⟨0, 1/2, 0⟩, ⟨0, 0, 0⟩⟩,
       ⟨⟨-16/25, -73/200, 0⟩, 1/4, 1, 1, 1/2, true, false⟩,
       some ⟨1, 1, ⟨-1, 0⟩⟩,
       some ⟨1/2, true, false, true, false, true, 1/5, 1/5⟩⟩ := by
    rw [c3tick2, h2]
    norm_num [CollisionSystem.update, checkBoundaryCollisions, collisionStep,
      resolveCollision, c3obstacle1, c3obstacle2, c3surface,
      Vec3.add, Vec3.sub, Vec3.smul, Vec3.dot, abs_le]
  have h4 : c3tick3 =
      ⟨⟨⟨-1317/500, 433/1000, 0⟩, ⟨-497/500, 399/500, 0⟩, ⟨0, 0, 0⟩⟩,
       ⟨⟨-41/25, -73/200, 0⟩, 1/4, 1, 1, 1/2, true, false⟩,
       some ⟨1, 1, ⟨-1, 0⟩⟩,
       some ⟨1/2, false, true, true, false, true, -4/5, 1/5⟩⟩ := by
    rw [c3tick3, h3]
    norm_num [PhysicsSystem.updateEntity, processPlayerMovement, processJumping,
      Jump.updateCooldown, Jump.executeJumpIfRequested, applyFriction,
      Transform.savePreviousPosition, Vec3.add]
  have h5 : c3afterInput2 =
      ⟨⟨⟨-1317/500, 433/1000, 0⟩, ⟨-497/500, 399/500, 0⟩, ⟨0, 0, 0⟩⟩,
       ⟨⟨-41/25, -73/200, 0⟩, 1/4, 1, 1, 1/2, true, false⟩,
       some ⟨1, 1, ⟨-1, 0⟩⟩,
       some ⟨1/2, false, true, true, true, true, -4/5, 1/5⟩⟩ := by
    rw [c3afterInput2, h4]
    norm_num [Jump.requestJump]
  have h6 : c3final.jump = some ⟨1/2, true, true, false, false, true, 1/5, 1/5⟩ := by
    rw [c3final, h5]
    norm_num [PhysicsSystem.updateEntity, processPlayerMovement, processJumping,
      Jump.updateCooldown, Jump.executeJumpIfRequested, applyFriction,
      Transform.savePreviousPosition, Vec3.add]
  exact ⟨rfl, h6, by rw [h6]; rfl⟩

/-- Clamping a coordinate that is already within the half extent returns it
    unchanged. -/
lemma clamp_of_abs_le {a x : ℚ} (h : |x| ≤ a) : max (-a) (min a x) = x := by
  obtain ⟨h1, h2⟩ := abs_le.mp h
  rw [min_eq_right h2, max_eq_right h1]

/-- C5 counterexample: with the sphere center embedded at local (1/2, 1/2, 0)
    in a 2 x 2 x 4 box, the axis distances tie at dx = dy = 1/2 < dz = 2, so
    the minimal axes are x and y; the claim then requires the normal to be
    the signed minimal axis (1,0,0) or (0,1,0), but both branch guards fail
    on the tie and the code falls through to the z axis, producing the zero
    vector (0,0,0) since the local z coordinate is 0. -/
theorem box_embedded_normal_tie_breaks :
    IsSqrtOf 0
      (((⟨1/2, 1/2, 0⟩ : Vec3).sub ⟨0, 0, 0⟩).sub
        (boxClosestPoint ((⟨1/2, 1/2, 0⟩ : Vec3).sub ⟨0, 0, 0⟩) (2/2) (2/2) (4/2))).normSq
    ∧ (2:ℚ)/2 - |(1:ℚ)/2| = 1/2
    ∧ (4:ℚ)/2 - |(0:ℚ)| = 2
    ∧ ((1:ℚ)/2 < 2)
    ∧ (checkSphereBoxCollision ⟨1/2, 1/2, 0⟩ 1 ⟨0, 0, 0⟩ 2 2 4 0).collided = true
    ∧ (checkSphereBoxCollision ⟨1/2, 1/2, 0⟩ 1 ⟨0, 0, 0⟩ 2 2 4 0).normal = ⟨0, 0, 0⟩
    ∧ ((⟨0, 0, 0⟩ : Vec3) ≠ ⟨msign (1/2), 0, 0⟩)
    ∧ ((⟨0, 0, 0⟩ : Vec3) ≠ ⟨0, msign (1/2), 0⟩) := by
  refine ⟨?_, ?_, ?_, ?_, ?_, ?_, ?_, ?_⟩ <;>
    norm_num [IsSqrtOf, Vec3.sub, Vec3.normSq, Vec3.mk.injEq, boxClosestPoint,
      checkSphereBoxCollision, msign, min_def, max_def, abs_le, abs_of_nonneg]

/-- C5 (amended): for a center embedded in the box (distance 0), the normal
    is the axis of minimal distance-to-face signed by the local coordinate
    (Math.sign, hence the zero vector when that coordinate is 0) whenever
    that minimum is strict on its axis; a tie dx = dy below dz falls through
    to the z axis instead of a minimal one (see the counterexample). -/
theorem box_embedded_normal_unique_min (spherePos boxPos : Vec3)
    (sphereRadius boxWidth boxHeight boxDepth dist : ℚ)
    (hr : 0 < sphereRadius)
    (hx : |(spherePos.sub boxPos).x| ≤ boxWidth / 2)
    (hy : |(spherePos.sub boxPos).y| ≤ boxHeight / 2)
    (hz : |(spherePos.sub boxPos).z| ≤ boxDepth / 2)
    (hdist : IsSqrtOf dist
      ((spherePos.sub boxPos).sub
        (boxClosestPoint (spherePos.sub boxPos) (boxWidth/2) (boxHeight/2) (boxDepth/2))).normSq) :
    (checkSphereBoxCollision spherePos sphereRadius boxPos boxWidth boxHeight boxDepth
        dist).collided = true
    ∧ ((boxWidth/2 - |(spherePos.sub boxPos).x| < boxHeight/2 - |(spherePos.sub boxPos).y|
        ∧ boxWidth/2 - |(spherePos.sub boxPos).x| < boxDepth/2 - |(spherePos.sub boxPos).z|) →
        (checkSphereBoxCollision spherePos sphereRadius boxPos boxWidth boxHeight boxDepth
          dist).normal = ⟨msign (spherePos.sub boxPos).x, 0, 0⟩)
    ∧ ((boxHeight/2 - |(spherePos.sub boxPos).y| < boxWidth/2 - |(spherePos.sub boxPos).x|
        ∧ boxHeight/2 - |(spherePos.sub boxPos).y| < boxDepth/2 - |(spherePos.sub boxPos).z|) →
        (checkSphereBoxCollision spherePos sphereRadius boxPos boxWidth boxHeight boxDepth
          dist).normal = ⟨0, msign (spherePos.sub boxPos).y, 0⟩)
    ∧ ((boxDepth/2 - |(spherePos.sub boxPos).z| < boxWidth/2 - |(spherePos.sub boxPos).x|
        ∧ boxDepth/2 - |(spherePos.sub boxPos).z| < boxHeight/2 - |(spherePos.sub boxPos).y|) →
        (checkSphereBoxCollision spherePos sphereRadius boxPos boxWidth boxHeight boxDepth
          dist).normal = ⟨0, 0, msign (spherePos.sub boxPos).z⟩) := by
  have hclose : boxClosestPoint (spherePos.sub boxPos) (boxWidth/2) (boxHeight/2) (boxDepth/2)
      = spherePos.sub boxPos := by
    unfold boxClosestPoint
    rw [clamp_of_abs_le hx, clamp_of_abs_le hy, clamp_of_abs_le hz]
  have hzero : ((spherePos.sub boxPos).sub
      (boxClosestPoint (spherePos.sub boxPos) (boxWidth/2) (boxHeight/2) (boxDepth/2))).normSq
      = 0 := by
    rw [hclose]
    simp [Vec3.sub, Vec3.normSq]
  have hd0 : dist = 0 := by
    have h2 := hdist.2
    rw [hzero] at h2
    exact (pow_eq_zero_iff (by norm_num : (2:ℕ) ≠ 0)).mp h2
  subst hd0
  refine ⟨?_, ?_, ?_, ?_⟩
  · simp [checkSphereBoxCollision, hclose, hr]
  · intro h
    simp [checkSphereBoxCollision, hclose, hr, h]
  · intro h
    have hn1 : ¬ (boxWidth/2 - |(spherePos.sub boxPos).x| < boxHeight/2 - |(spherePos.sub boxPos).y|
        ∧ boxWidth/2 - |(spherePos.sub boxPos).x| < boxDepth/2 - |(spherePos.sub boxPos).z|) := by
      intro hcon
      exact absurd hcon.1 (not_lt.mpr (le_of_lt h.1))
    simp [checkSphereBoxCollision, hclose, hr, hn1, h]
  · intro h
    have hn1 : ¬ (boxWidth/2 - |(spherePos.sub boxPos).x| < boxHeight/2 - |(spherePos.sub boxPos).y|
        ∧ boxWidth/2 - |(spherePos.sub boxPos).x| < boxDepth/2 - |(spherePos.sub boxPos).z|) := by
      intro hcon
      exact absurd hcon.2 (not_lt.mpr (le_of_lt h.1))
    have hn2 : ¬ (boxHeight/2 - |(spherePos.sub boxPos).y| < boxWidth/2 - |(spherePos.sub boxPos).x|
        ∧ boxHeight/2 - |(spherePos.sub boxPos).y| < boxDepth/2 - |(spherePos.sub boxPos).z|) := by
      intro hcon
      exact absurd hcon.2 (not_lt.mpr (le_of_lt h.2))
    simp [checkSphereBoxCollision, hclose, hr, hn1, hn2]

/-- C5 witness: a sphere embedded at local (0, 1/4, 0) in a 2 x 2 x 4 box
    with a strict minimum on the y axis (dy = 3/4 < dx = 1 < dz = 2) gets the
    signed y axis normal. -/
theorem box_embedded_normal_unique_min_witness :
    (checkSphereBoxCollision ⟨0, 1/4, 0⟩ 1 ⟨0, 0, 0⟩ 2 2 4 0).collided = true
    ∧ (checkSphereBoxCollision ⟨0, 1/4, 0⟩ 1 ⟨0, 0, 0⟩ 2 2 4 0).normal
        = ⟨0, msign ((⟨0, 1/4, 0⟩ : Vec3).sub ⟨0, 0, 0⟩).y, 0⟩ := by
  have h := box_embedded_normal_unique_min ⟨0, 1/4, 0⟩ ⟨0, 0, 0⟩ 1 2 2 4 0
    (by norm_num)
    (by norm_num [Vec3.sub])
    (by norm_num [Vec3.sub, abs_le])
    (by norm_num [Vec3.sub])
    (by norm_num [IsSqrtOf, Vec3.sub, Vec3.normSq, boxClosestPoint, min_def, max_def])
  exact ⟨h.1, h.2.2.1 (by norm_num [Vec3.sub, abs_le, abs_of_nonneg])⟩

/-- Scaling a vector scales its squared length by the square of the factor. -/
lemma Vec3_smul_normSq (c : ℚ) (v : Vec3) : (Vec3.smul c v).normSq = c ^ 2 * v.normSq := by
  simp only [Vec3.smul, Vec3.normSq]
  ring

/-- For a center strictly off the torus axis, the squared length of
    directionFromCircle is the squared gap between the major radius and the
    ring-plane distance. -/
lemma torusDir_normSq (l : Vec3) (torusRadius d : ℚ) (hd0 : 0 < d)
    (hsq : l.x ^ 2 + l.z ^ 2 = d ^ 2) :
    (torusDirFromCircle l torusRadius d).normSq = (torusRadius - d) ^ 2 := by
  have hdne : d ≠ 0 := ne_of_gt hd0
  simp only [torusDirFromCircle, torusCirclePoint, torusClosestPointOnCircle, if_pos hd0,
    Vec3.sub, Vec3.normSq]
  field_simp
  linear_combination (torusRadius - d) ^ 2 * hsq

/-- With a nonzero direction length, the vector from the torus surface
    closest point to the center is directionFromCircle scaled by
    (1 - tube/dirLen). -/
lemma torus_sub_closest (l : Vec3) (torusRadius torusTube d dirLen : ℚ)
    (hpos : 0 < dirLen) :
    l.sub (torusClosestPoint l torusRadius torusTube d dirLen)
      = Vec3.smul (1 - torusTube / dirLen) (torusDirFromCircle l torusRadius d) := by
  simp only [torusClosestPoint, if_pos hpos, torusDirFromCircle, Vec3.sub, Vec3.add, Vec3.smul,
    Vec3.mk.injEq]
  refine ⟨by ring, by ring, by ring⟩

/-- C2 counterexample: the claim exempts every sphere within
    majorRadius - tubeRadius - sphereRadius of the central axis regardless of
    its height, but a sphere exactly on the axis (ring-plane distance 0) at
    local height 10, far above a torus of major radius 3, tube 1/2, with
    sphere radius 1/2 (inner radius 2), is reported as colliding: the
    early-out also requires |y| < tube + sphereRadius, and the degenerate
    closest-point path then yields distance 0 < sphereRadius. -/
theorem torus_on_axis_far_reports_collision :
    IsSqrtOf 0 ((⟨0, 10, 0⟩ : Vec3).x ^ 2 + (⟨0, 10, 0⟩ : Vec3).z ^ 2)
    ∧ IsSqrtOf 0 (torusDirFromCircle ⟨0, 10, 0⟩ 3 0).normSq
    ∧ IsSqrtOf 0 ((((⟨0, 10, 0⟩ : Vec3)).sub (torusClosestPoint ⟨0, 10, 0⟩ 3 (1/2) 0 0)).normSq)
    ∧ ((0:ℚ) < 3 - 1/2 - 1/2)
    ∧ (checkSphereTorusCollision ⟨0, 10, 0⟩ (1/2) 3 (1/2) 0 0 0).collided = true := by
  refine ⟨?_, ?_, ?_, ?_, ?_⟩ <;>
    norm_num [IsSqrtOf, torusDirFromCircle, torusCirclePoint, torusClosestPointOnCircle,
      torusClosestPoint, checkSphereTorusCollision, Vec3.sub, Vec3.normSq, abs_lt]

/-- C2 (amended): the through-the-hole exemption holds for every sphere whose
    center is within majorRadius - tubeRadius - sphereRadius of the central
    axis and is either strictly off the axis (ring-plane distance d > 0, any
    height) or within tube + sphereRadius of the ring plane; exactly on the
    axis and at |y| >= tube + sphereRadius the test instead reports a
    collision (see the counterexample). -/
theorem torus_through_hole_exemption (l : Vec3)
    (sphereRadius torusRadius torusTube d dirLen dist : ℚ)
    (hr : 0 ≤ sphereRadius) (htube : 0 ≤ torusTube)
    (hd : IsSqrtOf d (l.x ^ 2 + l.z ^ 2))
    (hdir : IsSqrtOf dirLen (torusDirFromCircle l torusRadius d).normSq)
    (hdist : IsSqrtOf dist
      ((l.sub (torusClosestPoint l torusRadius torusTube d dirLen)).normSq))
    (hhole : d < torusRadius - torusTube - sphereRadius)
    (hoff : 0 < d ∨ |l.y| < torusTube + sphereRadius) :
    (checkSphereTorusCollision l sphereRadius torusRadius torusTube d dirLen dist).collided
      = false := by
  by_cases hoy : |l.y| < torusTube + sphereRadius
  · simp [checkSphereTorusCollision, hhole, hoy]
  · have hd0 : 0 < d := hoff.resolve_right hoy
    have hRd : 0 < torusRadius - d := by linarith
    have hdirn := torusDir_normSq l torusRadius d hd0 hd.2.symm
    have hdirlen : dirLen = torusRadius - d :=
      sqrt_value_eq hdir.1 (le_of_lt hRd) (hdir.2.trans hdirn)
    have hdirpos : 0 < dirLen := by rw [hdirlen]; exact hRd
    have hsub := torus_sub_closest l torusRadius torusTube d dirLen hdirpos
    have hdistn : (l.sub (torusClosestPoint l torusRadius torusTube d dirLen)).normSq
        = (torusRadius - torusTube - d) ^ 2 := by
      rw [hsub, Vec3_smul_normSq, hdirn, hdirlen]
      have hne : torusRadius - d ≠ 0 := ne_of_gt hRd
      field_simp
      ring
    have hdistval : dist = torusRadius - torusTube - d :=
      sqrt_value_eq hdist.1 (by linarith) (hdist.2.trans hdistn)
    have hnlt : ¬ (dist < sphereRadius) := by rw [hdistval]; linarith
    simp [checkSphereTorusCollision, hoy, hnlt]

/-- C2 witness: a sphere of radius 1 at local (3, 10, 4) (ring-plane distance
    5, far above the ring plane) against a torus of major radius 10 and tube
    1 (inner radius 8) reports no collision. -/
theorem torus_through_hole_exemption_witness :
    (checkSphereTorusCollision ⟨3, 10, 4⟩ 1 10 1 5 5 4).collided = false := by
  exact torus_through_hole_exemption ⟨3, 10, 4⟩ 1 10 1 5 5 4
    (by norm_num) (by norm_num)
    (by norm_num [IsSqrtOf])
    (by norm_num [IsSqrtOf, torusDirFromCircle, torusCirclePoint,
      torusClosestPointOnCircle, Vec3.sub, Vec3.normSq])
    (by norm_num [IsSqrtOf, torusClosestPoint, torusDirFromCircle, torusCirclePoint,
      torusClosestPointOnCircle, Vec3.sub, Vec3.add, Vec3.smul, Vec3.normSq])
    (by norm_num)
    (Or.inl (by norm_num))

end Marblez
